import Mathlib

/-!
Verification of the tplinky package (a Go client for TP-Link smart plugs)
against its natural-language specification. The Go source is shallowly
embedded: byte slices become `List Nat` (each element a byte value below
256, with the 8-bit truncation of Go `byte` arithmetic written as an
explicit mod 256), pure functions become Lean functions, and the network
is an oracle mapping each outbound `Control` message to the device reply
(`none` for any transport failure). Every operation also returns the list
of `Control` messages it put on the wire, so that write-counting claims
can be stated about the trace.
-/

namespace Tplinky

/-- XOR of two Go `byte` values. Go truncates to 8 bits, hence the
explicit mod 256 (for arguments below 256 the mod is a no-op, since XOR
cannot enlarge beyond the operands' bit width). -/
def bxor (a b : Nat) : Nat := (a ^^^ b) % 256

/-- Big-endian bytes of `int32(n)` as written by
`binary.Write(b, binary.BigEndian, int32(len(p)))` in `Encode`
(tplinky.go line 259). The two's-complement bit pattern of the int32 is
the bit pattern of `n % 2^32`, emitted most significant byte first. -/
def int32BE (n : Nat) : List Nat :=
  [n % 2 ^ 32 / 2 ^ 24, n % 2 ^ 32 / 2 ^ 16 % 256, n % 2 ^ 32 / 2 ^ 8 % 256,
    n % 2 ^ 32 % 256]

/-- The cipher loop of `Encode` (tplinky.go lines 260-264): the key
starts at the seed, each emitted ciphertext byte is `key ^ c`, and that
emitted byte becomes the new key. -/
def encodeChain (key : Nat) : List Nat → List Nat
  | [] => []
  | c :: cs => bxor key c :: encodeChain (bxor key c) cs

/-- Go `func Encode(p []byte) *bytes.Buffer` (tplinky.go 257-266): a
4-byte big-endian int32 length followed by the self-chaining XOR stream
seeded with 171. -/
def Encode (p : List Nat) : List Nat :=
  int32BE p.length ++ encodeChain 171 p

/-- The decode loop of `Decode` (tplinky.go 274-282): the key starts at
171, each output byte is `key ^ c`, and the new key is the consumed
ciphertext byte `c` itself (not the computed plaintext). -/
def decodeChain (key : Nat) : List Nat → List Nat
  | [] => []
  | c :: cs => bxor key c :: decodeChain c cs

/-- Go `func Decode(p []byte) *bytes.Buffer` (tplinky.go 269-284):
`binary.Read` consumes (up to) 4 header bytes from the buffer, its error
being ignored, then the loop decodes the remaining bytes until EOF. -/
def Decode (p : List Nat) : List Nat :=
  decodeChain 171 (p.drop 4)

/-- Bytes that `Conn.Write` (tplinky.go 296-299) hands to the underlying
`c.conn.Write`: the method calls `Encode(p)` but discards the returned
buffer (Go `Encode` only reads its argument and writes to a fresh
`bytes.Buffer`), then writes `p` itself. -/
def connWriteWire (p : List Nat) : List Nat :=
  let _buffer := Encode p
  p

/-- Bytes that `Conn.Read` (tplinky.go 287-293) leaves in `p`: it fills
`p` from `c.conn.Read`, calls `Encode(p[:n])` discarding the result, and
returns the transport bytes unchanged. -/
def connReadResult (wire : List Nat) : List Nat :=
  let _buffer := Encode wire
  wire

/-- Bytes that `Conn.Send` (tplinky.go 348) writes to the transport for
a serialized payload: `c.conn.Write(Encode(b.Bytes()).Bytes())`. -/
def sendWire (payload : List Nat) : List Nat :=
  Encode payload

/-! The command/response schema (tplinky.go 29-241). Go models optional
JSON fields as pointers; the embedding uses `Option`, with `none` for a
nil pointer. Structure and field names follow the source. -/

/-- Go `SystemCommandParameters` (tplinky.go 31-36). -/
structure SystemCommandParameters where
  delay : Option Int := none
  state : Option Int := none
  off : Option Int := none
  «alias» : Option String := none
deriving DecidableEq

/-- Go `MacAddr` (tplinky.go 40-42). -/
structure MacAddr where
  mac : String := ""
deriving DecidableEq

/-- Go `DeviceID` (tplinky.go 46-48). -/
structure DeviceID where
  deviceID : String := ""
deriving DecidableEq

/-- Go `HWID` (tplinky.go 52-54). -/
structure HWID where
  hwID : String := ""
deriving DecidableEq

/-- Go `DevLocation` (tplinky.go 58-61); the coordinates are float64. -/
structure DevLocation where
  longitude : Float
  latitude : Float

/-- Go `ActionType` (tplinky.go 64-66). -/
structure ActionType where
  type : Int := 0
deriving DecidableEq

/-- Go `Child` (tplinky.go 70-76): one socket of a power strip. -/
structure Child where
  id : String := ""
  state : Int := 0
  «alias» : String := ""
  onTime : Int := 0
  nextAction : ActionType := {}
deriving DecidableEq

/-- Go `ControlContext` (tplinky.go 80-82): selects power-strip children. -/
structure ControlContext where
  childIDs : List String := []
deriving DecidableEq

/-- Go `TimeZone` (tplinky.go 88-98). -/
structure TimeZone where
  year : Int := 0
  month : Int := 0
  mday : Int := 0
  hour : Int := 0
  min : Int := 0
  sec : Int := 0
  index : Int := 0
  errCode : Int := 0
  errMsg : String := ""
deriving DecidableEq

/-- Go `DevTime` (tplinky.go 101-105). The two `*json.RawMessage` get
fields only ever carry the `RawNull` sentinel, so presence is all the
model keeps. -/
structure DevTime where
  getTime : Option Unit := none
  getTimeZone : Option Unit := none
  setTimeZone : Option TimeZone := none
deriving DecidableEq

/-- Go `TimeResponse` (tplinky.go 108-111). -/
structure TimeResponse where
  getTime : Option TimeZone := none
  getTimeZone : Option TimeZone := none
deriving DecidableEq

/-- Go `EMeterResponse` (tplinky.go 114-120). -/
structure EMeterResponse where
  errCode : Int := 0
  currentMA : Int := 0
  voltageMV : Int := 0
  powerMW : Int := 0
  totalWH : Int := 0
deriving DecidableEq

/-- Go `EMeter` (tplinky.go 124-127): both request and response shape. -/
structure EMeter where
  eraseEMeterStat : Option EMeterResponse := none
  getRealTime : Option EMeterResponse := none
deriving DecidableEq

/-- Go `SystemCommands` (tplinky.go 131-142). `GetSysinfo` is an empty
struct, so its pointer is modeled as `Option Unit`. -/
structure SystemCommands where
  getSysinfo : Option Unit := none
  reboot : Option SystemCommandParameters := none
  reset : Option SystemCommandParameters := none
  setRelayState : Option SystemCommandParameters := none
  setLEDOff : Option SystemCommandParameters := none
  setDevAlias : Option SystemCommandParameters := none
  setMacAddr : Option MacAddr := none
  setDeviceID : Option DeviceID := none
  setHWID : Option HWID := none
  setDevLocation : Option DevLocation := none

/-- Go `StaInfoParameters` (tplinky.go 145-149). -/
structure StaInfoParameters where
  ssid : String := ""
  password : String := ""
  keyType : Int := 0
deriving DecidableEq

/-- Go `GetScanInfoParameters` (tplinky.go 152-154). -/
structure GetScanInfoParameters where
  refresh : Int := 0
deriving DecidableEq

/-- Go `APEntry` (tplinky.go 157-161). -/
structure APEntry where
  ssid : String := ""
  keyType : Int := 0
  rssi : Int := 0
deriving DecidableEq

/-- Go `GetScanInfoResponse` (tplinky.go 164-168). -/
structure GetScanInfoResponse where
  apList : List APEntry := []
  wpa3Support : Int := 0
  errCode : Int := 0
deriving DecidableEq

/-- Go `NetIfCommands` (tplinky.go 171-174). -/
structure NetIfCommands where
  setStaInfo : Option StaInfoParameters := none
  getScanInfo : Option GetScanInfoParameters := none
deriving DecidableEq

/-- Go `NetIfResponse` (tplinky.go 177-179). -/
structure NetIfResponse where
  getScanInfoResponse : Option GetScanInfoResponse := none
deriving DecidableEq

/-- Go `Control` (tplinky.go 185-191): the outbound message envelope. -/
structure Control where
  context : Option ControlContext := none
  system : Option SystemCommands := none
  time : Option DevTime := none
  netif : Option NetIfCommands := none
  emeter : Option EMeter := none

/-- Go `Sysinfo` (tplinky.go 199-228): the device status snapshot. -/
structure Sysinfo where
  swVer : String := ""
  hwVer : String := ""
  type : String := ""
  model : String := ""
  mac : String := ""
  devName : String := ""
  «alias» : String := ""
  relayState : Int := 0
  onTime : Int := 0
  activeMode : String := ""
  feature : String := ""
  updating : Int := 0
  iconHash : String := ""
  rssi : Int := 0
  ledOff : Int := 0
  longitudeI : Int := 0
  latitudeI : Int := 0
  hwID : String := ""
  fwID : String := ""
  deviceID : String := ""
  oemID : String := ""
  nextAction : ActionType := {}
  errCode : Int := 0
  status : String := ""
  obdSrc : String := ""
  micType : String := ""
  ntcState : Int := 0
  children : List Child := []
deriving DecidableEq

/-- Go `SystemResponse` (tplinky.go 231-233). -/
structure SystemResponse where
  getSysinfo : Option Sysinfo := none
deriving DecidableEq

/-- Go `Response` (tplinky.go 236-241): the inbound message envelope. -/
structure Response where
  system : Option SystemResponse := none
  time : Option TimeResponse := none
  netif : Option NetIfResponse := none
  emeter : Option EMeter := none
deriving DecidableEq

/-- The Go error values the modeled operations can return. `transport`
stands for any network-level or unmarshal failure surfaced by `Send`;
`netClosed` is the net package's write-on-closed-connection error;
`notOpen` is `ErrNotOpen` (tplinky.go 303); `noSysinfo` is the
"response did not contain sysinfo" error; `panicNilSysinfo` marks the
abnormal termination (Go runtime nil-pointer panic) `GetStatus` hits
when the `system` branch is present but `get_sysinfo` is nil — it is not
a Go error value, and no claim relies on it; `noEMeter` is `ErrNoEMeter`
(README.md 228); `emeterCode c` is the formatted "emeter error c";
`socketRange i n` is the formatted "socket=i not found in n sockets". -/
inductive GoErr where
  | transport
  | netClosed
  | notOpen
  | noSysinfo
  | panicNilSysinfo
  | noEMeter
  | emeterCode (code : Int)
  | socketRange (index : Int) (count : Nat)
deriving DecidableEq

/-- A device behind an open session: each outbound `Control` draws one
reply, with `none` modeling any transport or decode failure of that
exchange. -/
abbrev Oracle := Control → Option Response

/-- One `c.Send` call as an operation sees it: the reply or a transport
error, paired with the single `Control` that went over the wire (the
message is on the wire even when the exchange then fails). -/
def sendC (dev : Oracle) (cmd : Control) : Except GoErr Response × List Control :=
  match dev cmd with
  | none => (.error .transport, [cmd])
  | some r => (.ok r, [cmd])

/-- The exact `Control` value `GetStatus` sends (README.md 553-557). -/
def getSysinfoCmd : Control := { system := some { getSysinfo := some () } }

/-- The aliasing block of `GetStatus` (README.md 564-577): when
`Children` is non-empty, `RelayState` is rewritten to 0 and the loop
sets it to 1 at the first child with non-zero state, then breaks; the
loop-with-break is `List.any`. -/
def aliasRelayState (s : Sysinfo) : Sysinfo :=
  if s.children.length ≠ 0 then
    { s with relayState := if s.children.any (fun c => c.state != 0) then 1 else 0 }
  else s

/-- Go `func (c *Conn) GetStatus()` (README.md 552-579): one
`get_sysinfo` exchange, a check that the `system` branch is present, and
the child-state aliasing before the snapshot is handed back. -/
def GetStatus (dev : Oracle) : Except GoErr Sysinfo × List Control :=
  match sendC dev getSysinfoCmd with
  | (.error e, log) => (.error e, log)
  | (.ok r, log) =>
    match r.system with
    | none => (.error .noSysinfo, log)
    | some sr =>
      match sr.getSysinfo with
      | none => (.error .panicNilSysinfo, log)
      | some s => (.ok (aliasRelayState s), log)

/-- The `set_relay_state` write `Enable` sends (README.md 662-668): no
context selector. -/
def relayCmd (en : Int) : Control :=
  { system := some { setRelayState := some { state := some en } } }

/-- The `set_relay_state` write `EnableSocket` sends (README.md
693-702): a context selector carrying the given child IDs. -/
def relayWriteCmd (en : Int) (ids : List String) : Control :=
  { context := some { childIDs := ids },
    system := some { setRelayState := some { state := some en } } }

/-- Is this `Control` a relay write, i.e. does it carry a
`system.set_relay_state` branch? -/
def isRelayWrite (c : Control) : Bool :=
  match c.system with
  | some sc => sc.setRelayState.isSome
  | none => false

/-- Number of `set_relay_state` exchanges in a wire trace. -/
def countWrites (log : List Control) : Nat :=
  (log.filter isRelayWrite).length

/-- The validation-and-collection loop of `EnableSocket` (README.md
684-691): walk the requested indices in order, fail on the first index
outside `[0, len(children))` with the "socket=i not found in n sockets"
error, and collect the IDs of the children whose state differs from the
desired state. The list access is guarded, so the `getD` default is
never consulted. -/
def collectIDs (en : Int) (children : List Child) : List Int → Except GoErr (List String)
  | [] => .ok []
  | i :: rest =>
    if i < 0 ∨ (children.length : Int) ≤ i then
      .error (.socketRange i children.length)
    else
      match collectIDs en children rest with
      | .error e => .error e
      | .ok ids =>
        if en != (children.getD i.toNat {}).state then
          .ok ((children.getD i.toNat {}).id :: ids)
        else
          .ok ids

/-- The write loop of `EnableSocket` (README.md 692-706): one
`set_relay_state` exchange per collected child ID, each scoped to that
single ID (`children[i:i+1]`), stopping at the first failed exchange. -/
def writeLoop (dev : Oracle) (en : Int) : List String → Except GoErr Unit × List Control
  | [] => (.ok (), [])
  | cid :: rest =>
    match sendC dev (relayWriteCmd en [cid]) with
    | (.error e, log) => (.error e, log)
    | (.ok _, log) =>
      match writeLoop dev en rest with
      | (res, log2) => (res, log ++ log2)

/-- Go `func (c *Conn) EnableSocket(on bool, sockets ...int)` (README.md
674-708). -/
def EnableSocket (dev : Oracle) (o : Bool) (sockets : List Int) :
    Except GoErr Unit × List Control :=
  match GetStatus dev with
  | (.error e, log) => (.error e, log)
  | (.ok current, log) =>
    let en : Int := if o then 1 else 0
    match collectIDs en current.children sockets with
    | .error e => (.error e, log)
    | .ok ids =>
      match writeLoop dev en ids with
      | (res, log2) => (res, log ++ log2)

/-- Go `func (c *Conn) Enable(on bool)` (README.md 640-670): fetch
status; for a power strip delegate to `EnableSocket` over all child
indices; otherwise skip the write when the relay is already in the
desired state, else send one `set_relay_state`. -/
def Enable (dev : Oracle) (o : Bool) : Except GoErr Unit × List Control :=
  match GetStatus dev with
  | (.error e, log) => (.error e, log)
  | (.ok current, log) =>
    if current.children.length ≠ 0 then
      match EnableSocket dev o ((List.range current.children.length).map Int.ofNat) with
      | (res, log2) => (res, log ++ log2)
    else
      let en : Int := if o then 1 else 0
      if current.relayState = en then (.ok (), log)
      else
        match sendC dev (relayCmd en) with
        | (.error e, log2) => (.error e, log ++ log2)
        | (.ok _, log2) => (.ok (), log ++ log2)

/-- The `Control` `EMonState` sends (README.md 524-528): a zero-valued
`EMeterResponse` under `emeter.get_realtime`. -/
def emeterRealTimeCmd : Control := { emeter := some { getRealTime := some {} } }

/-- The `Control` `EMonReset` sends (README.md 505-509): a zero-valued
`EMeterResponse` under `emeter.erase_emeter_stat`. -/
def emeterResetCmd : Control := { emeter := some { eraseEMeterStat := some {} } }

/-- Go `func (c *Conn) EMonState()` (README.md 523-539). -/
def EMonState (dev : Oracle) : Except GoErr EMeterResponse × List Control :=
  match sendC dev emeterRealTimeCmd with
  | (.error e, log) => (.error e, log)
  | (.ok r, log) =>
    match r.emeter with
    | none => (.error .noEMeter, log)
    | some em =>
      match em.getRealTime with
      | none => (.error .noEMeter, log)
      | some rt =>
        if rt.errCode ≠ 0 then (.error (.emeterCode rt.errCode), log)
        else (.ok rt, log)

/-- Go `func (c *Conn) EMonReset()` (README.md 504-520). -/
def EMonReset (dev : Oracle) : Except GoErr Unit × List Control :=
  match sendC dev emeterResetCmd with
  | (.error e, log) => (.error e, log)
  | (.ok r, log) =>
    match r.emeter with
    | none => (.error .noEMeter, log)
    | some em =>
      match em.eraseEMeterStat with
      | none => (.error .noEMeter, log)
      | some es =>
        if es.errCode ≠ 0 then (.error (.emeterCode es.errCode), log)
        else (.ok (), log)

/-- Go `^mask` on a `uint32` value: bitwise complement within 32 bits. -/
def compl32 (m : Nat) : Nat := m ^^^ (2 ^ 32 - 1)

/-- The `last` bound of `Scan` (README.md 598): `(first & mask) | ^mask`,
which is the subnet's broadcast address. -/
def scanLast (first mask : Nat) : Nat := (first &&& mask) ||| compl32 mask

/-- The initial value of `Scan`'s loop counter (README.md 610):
`first + 1` computed on `uint32`, so it wraps to 0 when `first` is
0xFFFFFFFF. -/
def scanStart (first : Nat) : Nat := (first + 1) % 2 ^ 32

/-- The addresses probed by `Scan`'s loop (README.md 610):
`for n := first + 1; n < last; n++`, where `first` is the big-endian
uint32 of the parsed (masked) network address and all arithmetic is on
`uint32`. Only the initial `first + 1` can wrap: inside the loop
`n < last < 2^32` holds, so `n++` never overflows before the exit
test. -/
def scanTargets (first mask : Nat) : List Nat :=
  List.range' (scanStart first) (scanLast first mask - scanStart first)

/-- Go `func Scan(network string, timeout time.Duration)` (README.md
589-637), taken after `net.ParseCIDR` has produced the masked IPv4
network address `first` and the 4-byte mask (both as big-endian uint32
values). `probe a = some s` models a successful dial plus `GetStatus`
against address `a`; `none` models any per-host failure, which the
scanner silently drops. The Go implementation probes in parallel, but a
single collector goroutine alone writes the map and every address is
probed exactly once, so the result is a function of the per-address
outcomes; the sequential model captures exactly that. -/
def Scan (first mask : Nat) (probe : Nat → Option Sysinfo) : List (Nat × Sysinfo) :=
  (scanTargets first mask).filterMap fun a => (probe a).map fun s => (a, s)

/-- The state of the underlying `net.Conn` held by a `Conn`
(tplinky.go 247): open or closed, and the device behavior reachable
through it while open. A write on a closed TCP connection fails with the
net package's closed-connection error. -/
structure NetConn where
  isOpen : Bool
  dev : Oracle

/-- Go `Conn` (tplinky.go 245-248). The `conn` interface field may be
nil (`none`) for a zero-value `Conn` that was never dialed; calling a
method through it then panics. -/
structure Conn where
  target : String
  conn : Option NetConn

/-- Possible outcomes of a Go method call: a runtime panic, an error
return, or a successful return. -/
inductive Outcome (α : Type) where
  | panics
  | fails (e : GoErr)
  | succeeds (a : α)
deriving DecidableEq

/-- Go `func (c *Conn) Close() error` (tplinky.go 308-314). A nil
receiver or an empty `c.target` yields `ErrNotOpen`; otherwise Go clears
`c.target` first and then returns `c.conn.Close()`, which panics on a
nil interface and errors on an already-closed TCP connection. -/
def Conn.Close : Option Conn → Outcome Unit × Option Conn
  | none => (.fails .notOpen, none)
  | some c =>
    if c.target = "" then (.fails .notOpen, some c)
    else
      match c.conn with
      | none => (.panics, some { c with target := "" })
      | some nc =>
        if nc.isOpen then
          (.succeeds (), some { target := "", conn := some { nc with isOpen := false } })
        else
          (.fails .netClosed, some { target := "", conn := some nc })

/-- Go `func (c *Conn) Send(cmd Control)` (tplinky.go 339-369) at the
session level. `Send` never consults `c.target`: it marshals the command
(total here), touches the deadline, and goes straight to `c.conn`. A nil
receiver or nil `c.conn` panics (nil-interface method call); a closed
TCP connection fails the write with the net package's error; otherwise
the device oracle supplies the decoded reply, `none` standing for any
read, decode, or unmarshal failure. -/
def Conn.Send : Option Conn → Control → Outcome Response
  | none, _ => .panics
  | some c, cmd =>
    match c.conn with
    | none => .panics
    | some nc =>
      if nc.isOpen then
        match nc.dev cmd with
        | none => .fails .transport
        | some r => .succeeds r
      else .fails .netClosed

/-! Concrete devices and sessions used by the witnesses and
counterexamples below. -/

/-- A status snapshot with one child off and one child on. -/
def c3sys : Sysinfo :=
  { relayState := 0, children := [{ id := "A", state := 0 }, { id := "B", state := 1 }] }

/-- A reply carrying `c3sys`. -/
def c3resp : Response := { system := some { getSysinfo := some c3sys } }

/-- A single-relay device (no children) that is currently on. -/
def c4sys : Sysinfo := { relayState := 1 }

/-- A reply carrying `c4sys`. -/
def c4resp : Response := { system := some { getSysinfo := some c4sys } }

/-- A two-socket power strip snapshot. -/
def c5sys : Sysinfo :=
  { children := [{ id := "A", state := 1 }, { id := "B", state := 0 }] }

/-- A reply carrying `c5sys`. -/
def c5resp : Response := { system := some { getSysinfo := some c5sys } }

/-- The power strip of the spec's §8 example: child A on, child B off. -/
def c6sys : Sysinfo :=
  { children := [{ id := "A", state := 1 }, { id := "B", state := 0 }] }

/-- A reply carrying `c6sys`. -/
def c6resp : Response := { system := some { getSysinfo := some c6sys } }

/-- A one-socket strip whose only child is off. -/
def c6dupSys : Sysinfo := { children := [{ id := "A", state := 0 }] }

/-- A reply carrying `c6dupSys`. -/
def c6dupResp : Response := { system := some { getSysinfo := some c6dupSys } }

/-- An emeter reply whose realtime branch reports device error code 1. -/
def emeterErrResp : Response :=
  { emeter := some { getRealTime := some { errCode := 1 } } }

/-- An open TCP connection to a device that never answers. -/
def demoNet : NetConn := { isOpen := true, dev := fun _ => none }

/-- A freshly dialed session. -/
def demoOpenConn : Conn := { target := "192.168.1.2:9999", conn := some demoNet }

/-- The session state after closing `demoOpenConn` once. -/
def demoClosed : Option Conn := (Conn.Close (some demoOpenConn)).2

end Tplinky

namespace Tplinky

theorem bxor_comm (a b : Nat) : bxor a b = bxor b a := by
  unfold bxor
  rw [Nat.xor_comm]

theorem bxor_lt (a b : Nat) : bxor a b < 256 :=
  Nat.mod_lt _ (by omega)

theorem xor_lt_256 {a b : Nat} (ha : a < 256) (hb : b < 256) : a ^^^ b < 256 := by
  have := Nat.bitwise_lt_two_pow (f := bne) (n := 8) (x := a) (y := b)
  simp only [show (2 : Nat) ^ 8 = 256 from rfl] at this
  exact this ha hb

theorem bxor_eq_xor {a b : Nat} (ha : a < 256) (hb : b < 256) :
    bxor a b = a ^^^ b := by
  unfold bxor
  exact Nat.mod_eq_of_lt (xor_lt_256 ha hb)

theorem bxor_cancel {key c : Nat} (hk : key < 256) (hc : c < 256) :
    bxor key (bxor key c) = c := by
  rw [bxor_eq_xor hk hc, bxor_eq_xor hk (xor_lt_256 hk hc)]
  exact Nat.xor_cancel_left key c

theorem decodeChain_encodeChain :
    ∀ (p : List Nat) (key : Nat), key < 256 → (∀ b ∈ p, b < 256) →
      decodeChain key (encodeChain key p) = p
  | [], _, _, _ => rfl
  | c :: cs, key, hk, hp => by
    have hc : c < 256 := hp c (by simp)
    have hrest : ∀ b ∈ cs, b < 256 := fun b hb => hp b (by simp [hb])
    simp only [encodeChain, decodeChain]
    rw [bxor_cancel hk hc,
      decodeChain_encodeChain cs (bxor key c) (bxor_lt key c) hrest]

theorem encodeChain_length (p : List Nat) : ∀ key : Nat,
    (encodeChain key p).length = p.length := by
  induction p with
  | nil => intro key; rfl
  | cons c cs ih => intro key; simp [encodeChain, ih]

theorem Encode_length (p : List Nat) : (Encode p).length = 4 + p.length := by
  simp [Encode, int32BE, encodeChain_length]
  omega

/-- C1: for every byte sequence `p` (each element a byte value, including
the empty sequence), decoding the encoding of `p` yields `p` again:
`Decode(Encode(p).Bytes()).Bytes() == p`. -/
theorem c1_decode_encode_roundtrip (p : List Nat) (hp : ∀ b ∈ p, b < 256) :
    Decode (Encode p) = p := by
  show decodeChain 171 ((int32BE p.length ++ encodeChain 171 p).drop 4) = p
  rw [show (int32BE p.length ++ encodeChain 171 p).drop 4 = encodeChain 171 p by
    simp [int32BE]]
  exact decodeChain_encodeChain p 171 (by omega) hp

/-- Witness for C1 at a concrete byte sequence. -/
theorem c1_decode_encode_roundtrip_witness :
    Decode (Encode [0, 171, 255, 34]) = [0, 171, 255, 34] :=
  c1_decode_encode_roundtrip [0, 171, 255, 34] (by decide)

theorem encodeChain_getD :
    ∀ (p : List Nat) (key i : Nat), i < p.length →
      (encodeChain key p).getD i 0 =
        bxor (p.getD i 0)
          (if i = 0 then key else (encodeChain key p).getD (i - 1) 0)
  | [], _, i, h => absurd h (by simp)
  | c :: cs, key, 0, _ => by
    simp only [encodeChain, List.getD_cons_zero, if_pos rfl]
    exact bxor_comm key c
  | c :: cs, key, i + 1, h => by
    have ih := encodeChain_getD cs (bxor key c) i (by simpa using h)
    cases i with
    | zero => simpa [encodeChain] using ih
    | succ j => simpa [encodeChain] using ih

/-- C2: `Encode p` is the length of `p` as a 4-byte big-endian signed
integer (the bytes of `int32(len(p))`) followed by exactly `len p`
cipher bytes, where cipher byte `i` equals plaintext byte `i` XOR the
previous cipher byte, with the constant 171 serving as the previous
cipher byte at position 0. -/
theorem c2_encode_shape (p : List Nat) :
    Encode p = int32BE p.length ++ encodeChain 171 p ∧
    (int32BE p.length).length = 4 ∧
    (encodeChain 171 p).length = p.length ∧
    ∀ i, i < p.length →
      (encodeChain 171 p).getD i 0 =
        bxor (p.getD i 0)
          (if i = 0 then 171 else (encodeChain 171 p).getD (i - 1) 0) := by
  refine ⟨rfl, by simp [int32BE], encodeChain_length p 171, ?_⟩
  intro i hi
  exact encodeChain_getD p 171 i hi

/-- Witness for C2: the recurrence evaluated at a concrete plaintext and
position. -/
theorem c2_encode_shape_witness :
    (encodeChain 171 [7, 9]).getD 1 0 =
      bxor ([7, 9].getD 1 0)
        (if 1 = 0 then 171 else (encodeChain 171 [7, 9]).getD (1 - 1) 0) :=
  (c2_encode_shape [7, 9]).2.2.2 1 (by decide)

/-- C10: the exported `Conn.Write` passes its argument to the transport
byte-for-byte unchanged (the buffer built by its `Encode` call is
discarded, so the wire bytes are never the framed `Encode p`),
`Conn.Read` returns the transport's bytes unchanged, and only `Send`
applies `Encode` to the payload it writes. -/
theorem c10_read_write_skip_codec (p : List Nat) :
    connWriteWire p = p ∧
    connWriteWire p ≠ Encode p ∧
    connReadResult p = p ∧
    sendWire p = Encode p := by
  refine ⟨rfl, ?_, rfl, rfl⟩
  intro h
  have hlen := congrArg List.length h
  rw [Encode_length] at hlen
  simp only [connWriteWire] at hlen
  omega

theorem aliasRelayState_children (s : Sysinfo) :
    (aliasRelayState s).children = s.children := by
  unfold aliasRelayState
  split <;> rfl

theorem GetStatus_ok (dev : Oracle) (r : Response) (s : Sysinfo)
    (hdev : dev getSysinfoCmd = some r)
    (hsys : r.system = some { getSysinfo := some s }) :
    GetStatus dev = (.ok (aliasRelayState s), [getSysinfoCmd]) := by
  unfold GetStatus sendC
  rw [hdev]
  simp [hsys]

/-- C3: for every device reply carrying a `Sysinfo`, when its `Children`
list is non-empty `GetStatus` returns the snapshot with the top-level
`RelayState` replaced by the logical OR of the children's states (1 if
any child's state is non-zero, else 0), regardless of the wire value;
when `Children` is empty the wire `RelayState` passes through
unchanged. -/
theorem c3_getstatus_aliasing (dev : Oracle) (r : Response) (s : Sysinfo)
    (hdev : dev getSysinfoCmd = some r)
    (hsys : r.system = some { getSysinfo := some s }) :
    (s.children ≠ [] →
      (GetStatus dev).1 =
        .ok { s with relayState := if ∃ c ∈ s.children, c.state ≠ 0 then 1 else 0 }) ∧
    (s.children = [] → (GetStatus dev).1 = .ok s) := by
  rw [GetStatus_ok dev r s hdev hsys]
  constructor
  · intro hne
    unfold aliasRelayState
    rw [if_pos (by simp [hne])]
    simp [List.any_eq_true]
  · intro he
    unfold aliasRelayState
    rw [if_neg (by simp [he])]

/-- Witness for C3 at a device whose children are off and on. -/
theorem c3_getstatus_aliasing_witness :
    (GetStatus (fun _ => some c3resp)).1 =
      .ok { c3sys with relayState := if ∃ c ∈ c3sys.children, c.state ≠ 0 then 1 else 0 } :=
  (c3_getstatus_aliasing (fun _ => some c3resp) c3resp c3sys rfl rfl).1 (by decide)

/-- C4: against a device with an empty `Children` list, `Enable` first
queries status, then issues zero `set_relay_state` exchanges when the
current relay state already equals the desired state and exactly one
when it differs; hence two consecutive `Enable(true)` calls against a
device already on issue at most one write in total (in fact zero). -/
theorem c4_enable_idempotent (dev : Oracle) (r : Response) (s : Sysinfo) (o : Bool)
    (hdev : dev getSysinfoCmd = some r)
    (hsys : r.system = some { getSysinfo := some s })
    (hch : s.children = []) :
    ((Enable dev o).2.head? = some getSysinfoCmd) ∧
    (s.relayState = (if o then 1 else 0) → countWrites (Enable dev o).2 = 0) ∧
    (s.relayState ≠ (if o then 1 else 0) → countWrites (Enable dev o).2 = 1) ∧
    (s.relayState = 1 →
      countWrites (Enable dev true).2 + countWrites (Enable dev true).2 ≤ 1) := by
  have halias : aliasRelayState s = s := by
    unfold aliasRelayState
    rw [if_neg (by simp [hch])]
  have hgs : GetStatus dev = (.ok s, [getSysinfoCmd]) := by
    rw [GetStatus_ok dev r s hdev hsys, halias]
  have hrun : ∀ b : Bool, Enable dev b =
      if s.relayState = (if b then 1 else 0) then (.ok (), [getSysinfoCmd])
      else
        match sendC dev (relayCmd (if b then 1 else 0)) with
        | (.error e, log2) => (.error e, [getSysinfoCmd] ++ log2)
        | (.ok _, log2) => (.ok (), [getSysinfoCmd] ++ log2) := by
    intro b
    unfold Enable
    rw [hgs]
    simp [hch]
  refine ⟨?_, ?_, ?_, ?_⟩
  · rw [hrun o]
    by_cases h : s.relayState = (if o then 1 else 0)
    · simp [h]
    · rw [if_neg h]
      unfold sendC
      cases dev (relayCmd (if o then 1 else 0)) <;> simp
  · intro h
    rw [hrun o, if_pos h]
    decide
  · intro h
    rw [hrun o, if_neg h]
    unfold sendC
    cases dev (relayCmd (if o then 1 else 0)) <;>
      simp [countWrites, isRelayWrite, relayCmd, getSysinfoCmd]
  · intro h
    have : countWrites (Enable dev true).2 = 0 := by
      rw [hrun true, if_pos (by simpa using h)]
      decide
    omega

/-- Witness for C4: a single-relay device already on sees no write from
`Enable true`. -/
theorem c4_enable_idempotent_witness :
    countWrites (Enable (fun _ => some c4resp) true).2 = 0 :=
  (c4_enable_idempotent (fun _ => some c4resp) c4resp c4sys true rfl rfl rfl).2.1
    (by decide)

theorem collectIDs_bad (en : Int) (children : List Child) :
    ∀ sockets : List Int,
      (∃ i ∈ sockets, i < 0 ∨ (children.length : Int) ≤ i) →
      ∃ j ∈ sockets, (j < 0 ∨ (children.length : Int) ≤ j) ∧
        collectIDs en children sockets = .error (.socketRange j children.length)
  | [], h => absurd h (by simp)
  | i :: rest, h => by
    by_cases hi : i < 0 ∨ (children.length : Int) ≤ i
    · exact ⟨i, by simp, hi, by simp [collectIDs, hi]⟩
    · have hrest : ∃ k ∈ rest, k < 0 ∨ (children.length : Int) ≤ k := by
        rcases h with ⟨k, hk, hbad⟩
        rcases List.mem_cons.mp hk with h1 | h2
        · exact absurd (h1 ▸ hbad) hi
        · exact ⟨k, h2, hbad⟩
      obtain ⟨j, hj, hbad, heq⟩ := collectIDs_bad en children rest hrest
      exact ⟨j, by simp [hj], hbad, by simp [collectIDs, hi, heq]⟩

/-- C5: when any requested socket index is outside `[0, len(children))`,
`EnableSocket` returns the "socket=j not found in n sockets" error for
an offending index `j` (the first one, in request order) with `n` the
number of known sockets, and issues zero `set_relay_state` writes. -/
theorem c5_enablesocket_range (dev : Oracle) (r : Response) (s : Sysinfo) (o : Bool)
    (sockets : List Int)
    (hdev : dev getSysinfoCmd = some r)
    (hsys : r.system = some { getSysinfo := some s })
    (hbad : ∃ i ∈ sockets, i < 0 ∨ (s.children.length : Int) ≤ i) :
    ∃ j ∈ sockets, (j < 0 ∨ (s.children.length : Int) ≤ j) ∧
      (EnableSocket dev o sockets).1 = .error (.socketRange j s.children.length) ∧
      countWrites (EnableSocket dev o sockets).2 = 0 := by
  have hgs := GetStatus_ok dev r s hdev hsys
  obtain ⟨j, hj, hbadj, heq⟩ :=
    collectIDs_bad (if o then 1 else 0) s.children sockets hbad
  have hrun : EnableSocket dev o sockets =
      (.error (.socketRange j s.children.length), [getSysinfoCmd]) := by
    unfold EnableSocket
    rw [hgs]
    simp only [aliasRelayState_children]
    rw [heq]
  refine ⟨j, hj, hbadj, by rw [hrun], ?_⟩
  rw [hrun]
  show countWrites [getSysinfoCmd] = 0
  decide

/-- Witness for C5: requesting socket 5 of a two-socket strip fails with
the range error naming index 5 and count 2, without any write. -/
theorem c5_enablesocket_range_witness :
    ∃ j ∈ ([5] : List Int), (j < 0 ∨ (c5sys.children.length : Int) ≤ j) ∧
      (EnableSocket (fun _ => some c5resp) true [5]).1 =
        .error (.socketRange j c5sys.children.length) ∧
      countWrites (EnableSocket (fun _ => some c5resp) true [5]).2 = 0 :=
  c5_enablesocket_range (fun _ => some c5resp) c5resp c5sys true [5] rfl rfl
    (by decide)

theorem collectIDs_ok (en : Int) (children : List Child) :
    ∀ sockets : List Int,
      (∀ i ∈ sockets, 0 ≤ i ∧ i < (children.length : Int)) →
      collectIDs en children sockets =
        .ok ((sockets.filter fun i => en != (children.getD i.toNat {}).state).map
          fun i => (children.getD i.toNat {}).id)
  | [], _ => rfl
  | i :: rest, h => by
    have hi := h i (by simp)
    have hrest : ∀ k ∈ rest, 0 ≤ k ∧ k < (children.length : Int) :=
      fun k hk => h k (List.mem_cons_of_mem i hk)
    have hnot : ¬(i < 0 ∨ (children.length : Int) ≤ i) := by omega
    rw [collectIDs, if_neg hnot, collectIDs_ok en children rest hrest]
    by_cases hd : (en != (children.getD i.toNat {}).state) = true
    · have hne := hd
      rw [bne_iff_ne] at hne
      rw [List.getD_eq_getElem?_getD] at hne
      simp [hne, List.filter_cons]
    · have he : en = (children.getD i.toNat {}).state := by simpa using hd
      rw [List.getD_eq_getElem?_getD] at he
      simp [he, List.filter_cons]

theorem writeLoop_all_ok (dev : Oracle) (r : Response) (en : Int)
    (hall : ∀ cmd, dev cmd = some r) :
    ∀ ids : List String,
      writeLoop dev en ids = (.ok (), ids.map fun cid => relayWriteCmd en [cid])
  | [] => rfl
  | cid :: rest => by
    have hsend : sendC dev (relayWriteCmd en [cid]) =
        (.ok r, [relayWriteCmd en [cid]]) := by
      unfold sendC
      rw [hall]
    rw [writeLoop, hsend, writeLoop_all_ok dev r en hall rest]
    rfl

theorem countWrites_cons_write (c : Control) (ms : List Control)
    (h : isRelayWrite c = true) :
    countWrites (c :: ms) = countWrites ms + 1 := by
  simp [countWrites, List.filter_cons, h]

theorem countWrites_cons_other (c : Control) (ms : List Control)
    (h : isRelayWrite c = false) :
    countWrites (c :: ms) = countWrites ms := by
  simp [countWrites, List.filter_cons, h]

theorem countWrites_relayWrites {α : Type} (en : Int) (f : α → List String) :
    ∀ l : List α, countWrites (l.map fun a => relayWriteCmd en (f a)) = l.length
  | [] => rfl
  | a :: t => by
    rw [List.map_cons, countWrites_cons_write (relayWriteCmd en (f a)) _ rfl,
      countWrites_relayWrites en f t, List.length_cons]

/-- C6 (amended): for every in-range list of requested socket indices,
against a device that answers every exchange, `EnableSocket` issues, in
request order, one `set_relay_state` exchange per occurrence of a
requested index whose child's current state differs from the desired
state (so duplicate indices yield duplicate exchanges), each exchange
carrying a context selector with exactly that single child's
device-assigned ID; when every requested index's child already matches
the desired state it issues zero writes. -/
theorem c6_enablesocket_writes (dev : Oracle) (r : Response) (s : Sysinfo) (o : Bool)
    (sockets : List Int)
    (hall : ∀ cmd, dev cmd = some r)
    (hsys : r.system = some { getSysinfo := some s })
    (hin : ∀ i ∈ sockets, 0 ≤ i ∧ i < (s.children.length : Int)) :
    (EnableSocket dev o sockets).2 =
      getSysinfoCmd ::
        ((sockets.filter fun i =>
            (if o then (1 : Int) else 0) != (s.children.getD i.toNat {}).state).map
          fun i => relayWriteCmd (if o then 1 else 0) [(s.children.getD i.toNat {}).id]) ∧
    countWrites (EnableSocket dev o sockets).2 =
      (sockets.filter fun i =>
          (if o then (1 : Int) else 0) != (s.children.getD i.toNat {}).state).length ∧
    ((∀ i ∈ sockets,
        ((if o then (1 : Int) else 0) != (s.children.getD i.toNat {}).state) = false) →
      countWrites (EnableSocket dev o sockets).2 = 0) := by
  have hgs := GetStatus_ok dev r s (hall getSysinfoCmd) hsys
  have hrun : EnableSocket dev o sockets =
      (.ok (),
        getSysinfoCmd ::
          ((sockets.filter fun i =>
              (if o then (1 : Int) else 0) != (s.children.getD i.toNat {}).state).map
            fun i => relayWriteCmd (if o then 1 else 0)
              [(s.children.getD i.toNat {}).id])) := by
    unfold EnableSocket
    rw [hgs]
    simp only [aliasRelayState_children]
    simp only [collectIDs_ok (if o then 1 else 0) s.children sockets hin,
      writeLoop_all_ok dev r (if o then 1 else 0) hall]
    simp [List.map_map, Function.comp]
  refine ⟨by rw [hrun], ?_, ?_⟩
  · rw [hrun]
    show countWrites (getSysinfoCmd :: _) = _
    rw [countWrites_cons_other getSysinfoCmd _ rfl]
    exact countWrites_relayWrites (if o then (1 : Int) else 0)
      (fun i : Int => [(s.children.getD i.toNat {}).id]) _
  · intro hmatch
    rw [hrun]
    show countWrites (getSysinfoCmd :: _) = 0
    rw [countWrites_cons_other getSysinfoCmd _ rfl]
    have hnil : (sockets.filter fun i =>
        (if o then (1 : Int) else 0) != (s.children.getD i.toNat {}).state) = [] :=
      List.filter_eq_nil_iff.mpr (fun a ha => by rw [hmatch a ha]; simp)
    rw [hnil]
    rfl

/-- Witness for C6 (amended), on the spec's §8 power strip: requesting
sockets 0 and 1 with desired state on issues exactly the one write that
targets child B. -/
theorem c6_enablesocket_writes_witness :
    countWrites (EnableSocket (fun _ => some c6resp) true [0, 1]).2 =
      (([0, 1] : List Int).filter fun i =>
          (if true then (1 : Int) else 0) != (c6sys.children.getD i.toNat {}).state).length :=
  (c6_enablesocket_writes (fun _ => some c6resp) c6resp c6sys true [0, 1]
    (fun _ => rfl) rfl (by decide)).2.1

/-- C6 counterexample: on a one-socket strip whose only child differs
from the desired state, requesting the duplicate index list `[0, 0]`
makes `EnableSocket` issue two `set_relay_state` exchanges for the
single requested differing child, not exactly one as the claim
states. -/
theorem c6_counterexample :
    countWrites (EnableSocket (fun _ => some c6dupResp) true [0, 0]).2 = 2 ∧
    countWrites (EnableSocket (fun _ => some c6dupResp) true [0, 0]).2 ≠ 1 := by
  constructor <;> decide

/-- C7 counterexample: after closing a dialed session, `Send` on it
fails with the net package's closed-connection error, which is distinct
from `ErrNotOpen`, and `Send` on a never-opened zero-value session
panics; so not every operation on a closed or never-opened session is
rejected with `ErrNotOpen`. -/
theorem c7_counterexample :
    Conn.Send demoClosed {} = .fails .netClosed ∧
    Outcome.fails (α := Response) .netClosed ≠ .fails .notOpen ∧
    Conn.Send (some { target := "", conn := none }) {} = .panics := by
  refine ⟨by decide, by decide, rfl⟩

/-- C7 (amended): the open-state guard protects only `Close`. `Close`
on a nil, never-opened (empty target), or already-closed session
returns `ErrNotOpen`, so a second `Close` on the same connection yields
`ErrNotOpen`; but `Send` performs no such check: on a closed session it
surfaces the transport's closed-connection error, distinct from
`ErrNotOpen`, and on a never-opened zero-value session it panics. -/
theorem c7_close_send (c : Conn) (nc : NetConn) (cmd : Control) :
    Conn.Close none = (.fails .notOpen, none) ∧
    (c.target = "" → (Conn.Close (some c)).1 = .fails .notOpen) ∧
    (c.target ≠ "" → c.conn = some nc → nc.isOpen →
      (Conn.Close (some c)).1 = .succeeds () ∧
      (Conn.Close (Conn.Close (some c)).2).1 = .fails .notOpen) ∧
    (c.conn = some nc → nc.isOpen = false → Conn.Send (some c) cmd = .fails .netClosed) ∧
    GoErr.netClosed ≠ GoErr.notOpen ∧
    (c.conn = none → Conn.Send (some c) cmd = .panics) := by
  refine ⟨rfl, ?_, ?_, ?_, by decide, ?_⟩
  · intro h
    simp [Conn.Close, h]
  · intro h hc hopen
    constructor
    · simp [Conn.Close, h, hc, hopen]
    · simp [Conn.Close, h, hc, hopen]
  · intro hc hclosed
    simp [Conn.Send, hc, hclosed]
  · intro hc
    simp [Conn.Send, hc]

/-- Witness for C7 (amended): a dialed session closes once with success
and a second `Close` yields `ErrNotOpen`. -/
theorem c7_close_send_witness :
    (Conn.Close (some demoOpenConn)).1 = .succeeds () ∧
    (Conn.Close (Conn.Close (some demoOpenConn)).2).1 = .fails .notOpen :=
  (c7_close_send demoOpenConn demoNet {}).2.2.1 (by decide) rfl rfl

/-- C8 counterexample: at the parseable CIDR `255.255.255.255/32`
(`first = mask = 0xFFFFFFFF`, which is masked, so it satisfies the
claim's premises), the uint32 increment `first + 1` wraps to 0 and the
loop probes address 0 — an address that is not strictly between the
network address and the broadcast address (that set is empty there), so
`Scan` does not probe exactly the strictly-between range. -/
theorem c8_counterexample :
    (4294967295 : Nat) &&& 4294967295 = 4294967295 ∧
    0 ∈ scanTargets 4294967295 4294967295 ∧
    ¬(4294967295 &&& 4294967295 < 0 ∧ 0 < scanLast 4294967295 4294967295) := by
  refine ⟨by decide, ?_, by simp⟩
  show 0 ∈ List.range' (scanStart 4294967295)
    (scanLast 4294967295 4294967295 - scanStart 4294967295)
  rw [List.mem_range'_1,
    show scanStart 4294967295 = 0 from by decide,
    show scanLast 4294967295 4294967295 = 4294967295 from by decide]
  omega

/-- C8 (amended): for every parsed IPv4 CIDR (masked network address
`first` and mask, as uint32 values) whose network address is below
0xFFFFFFFF — so the uint32 increment `first + 1` does not wrap — `Scan`
attempts a status probe against exactly the addresses strictly between
the network address and the broadcast address (both endpoints
excluded), each address exactly once (the target list has no
duplicates), and the returned mapping has entries exactly for the
probed addresses whose status query succeeded. At the one degenerate
network `255.255.255.255/32` the wrapped counter instead probes
0 through 0xFFFFFFFE. -/
theorem c8_scan_range (first mask : Nat) (probe : Nat → Option Sysinfo)
    (hmask : mask < 2 ^ 32)
    (hmasked : first &&& mask = first)
    (hnowrap : first + 1 < 2 ^ 32) :
    (∀ a, a ∈ scanTargets first mask ↔
      first &&& mask < a ∧ a < scanLast first mask) ∧
    (scanTargets first mask).Nodup ∧
    ∀ a s, (a, s) ∈ Scan first mask probe ↔
      a ∈ scanTargets first mask ∧ probe a = some s := by
  have hstart : scanStart first = first + 1 := Nat.mod_eq_of_lt hnowrap
  refine ⟨?_, List.nodup_range' _ _, ?_⟩
  · intro a
    rw [hmasked]
    simp only [scanTargets, hstart, List.mem_range'_1]
    omega
  · intro a s
    simp only [Scan, List.mem_filterMap, Option.map_eq_some']
    constructor
    · rintro ⟨a', ha', s', hs', heq⟩
      injection heq with h1 h2
      subst h1
      subst h2
      exact ⟨ha', hs'⟩
    · rintro ⟨ha, hs⟩
      exact ⟨a, ha, s, hs, rfl⟩

/-- Witness for C8 (amended) on the /28 network at 16: the probe list
is exactly the host addresses strictly between 16 and 31, and is
duplicate-free. -/
theorem c8_scan_range_witness :
    (17 ∈ scanTargets 16 4294967280 ↔
      16 &&& 4294967280 < 17 ∧ 17 < scanLast 16 4294967280) ∧
    (scanTargets 16 4294967280).Nodup :=
  ⟨(c8_scan_range 16 4294967280 (fun _ => some {}) (by decide) (by decide)
      (by decide)).1 17,
    (c8_scan_range 16 4294967280 (fun _ => some {}) (by decide) (by decide)
      (by decide)).2.1⟩

/-- C9: for every reply to an energy-meter request, if the `emeter`
branch (or its `get_realtime` / `erase_emeter_stat` sub-branch) is
absent, `EMonState` and `EMonReset` fail with the distinct `ErrNoEMeter`
error; if the branch is present with a non-zero embedded `err_code`,
they fail with the device-reported "emeter error code" error carrying
that code; and both errors are distinct from the transport errors. -/
theorem c9_emeter_errors (dev : Oracle) (r : Response) (em : EMeter)
    (rt es : EMeterResponse)
    (hall : ∀ cmd, dev cmd = some r) :
    (r.emeter = none →
      (EMonState dev).1 = .error .noEMeter ∧ (EMonReset dev).1 = .error .noEMeter) ∧
    (r.emeter = some em → em.getRealTime = none →
      (EMonState dev).1 = .error .noEMeter) ∧
    (r.emeter = some em → em.eraseEMeterStat = none →
      (EMonReset dev).1 = .error .noEMeter) ∧
    (r.emeter = some em → em.getRealTime = some rt → rt.errCode ≠ 0 →
      (EMonState dev).1 = .error (.emeterCode rt.errCode)) ∧
    (r.emeter = some em → em.eraseEMeterStat = some es → es.errCode ≠ 0 →
      (EMonReset dev).1 = .error (.emeterCode es.errCode)) ∧
    (GoErr.noEMeter ≠ GoErr.transport ∧ GoErr.noEMeter ≠ GoErr.netClosed) ∧
    ∀ code : Int, GoErr.emeterCode code ≠ GoErr.transport ∧
      GoErr.emeterCode code ≠ GoErr.netClosed := by
  have hs : sendC dev emeterRealTimeCmd = (.ok r, [emeterRealTimeCmd]) := by
    unfold sendC
    rw [hall]
  have hr : sendC dev emeterResetCmd = (.ok r, [emeterResetCmd]) := by
    unfold sendC
    rw [hall]
  refine ⟨?_, ?_, ?_, ?_, ?_, ⟨by decide, by decide⟩, fun code => ⟨?_, ?_⟩⟩
  · intro h
    constructor
    · unfold EMonState
      rw [hs]
      simp [h]
    · unfold EMonReset
      rw [hr]
      simp [h]
  · intro h hrt
    unfold EMonState
    rw [hs]
    simp [h, hrt]
  · intro h hes
    unfold EMonReset
    rw [hr]
    simp [h, hes]
  · intro h hrt hcode
    unfold EMonState
    rw [hs]
    simp [h, hrt, hcode]
  · intro h hes hcode
    unfold EMonReset
    rw [hr]
    simp [h, hes, hcode]
  · intro h
    exact GoErr.noConfusion h
  · intro h
    exact GoErr.noConfusion h

/-- Witness for C9: a device answering the realtime request with
embedded error code 1 makes `EMonState` fail with that device-reported
error. -/
theorem c9_emeter_errors_witness :
    (EMonState (fun _ => some emeterErrResp)).1 = .error (.emeterCode (1 : Int)) :=
  (c9_emeter_errors (fun _ => some emeterErrResp) emeterErrResp
      { getRealTime := some { errCode := 1 } } { errCode := 1 } {}
      (fun _ => rfl)).2.2.2.1 rfl rfl (by decide)

end Tplinky
